import Mathlib

/-!
Verification of the VLM-Attention-Viz extraction pipeline.

Shallow embedding of the attention-extraction orchestrator
(`src/attentionviz/extract.py` / `src/extract.py`), the Qwen3-VL adapter
(`src/attentionviz/models/qwen3_vl.py`) and the grid-alignment algorithm.
External collaborators (the torch model, tokenizer, PIL, the filesystem)
are abstracted into an `Env` record; the orchestrator itself is embedded
as a pure function from `Env` to a trace of its effects.
-/

namespace AttentionViz

/-- Qwen VL image-placeholder token id (`qwen3_vl.py`, `IMAGE_TOKEN_ID = 151655`). -/
def IMAGE_TOKEN_ID : Nat := 151655

/-- Message of the Python `ZeroDivisionError` raised by `img_idx // grid_cols`
when `grid_cols == 0`. -/
def dzMsg : String := "ZeroDivisionError: integer division or modulo by zero"

/-- Whether the second character list begins the first (kernel-evaluable
helper underlying the embeddings of Python `str.startswith` and
`str.endswith`). -/
def charsStartWith : List Char → List Char → Bool
  | _, [] => true
  | [], _ :: _ => false
  | c :: cs, d :: ds => c == d && charsStartWith cs ds

/-- Embedding of Python `token_text.startswith(p)`. -/
def strStartsWith (s p : String) : Bool := charsStartWith s.data p.data

/-- Embedding of Python `token_text.endswith(p)`. -/
def strEndsWith (s p : String) : Bool :=
  charsStartWith s.data.reverse p.data.reverse

/-- ASCII lower-casing of one character (the path suffixes fed to
`str.lower()` in the source are ASCII). -/
def lowerChar (c : Char) : Char :=
  if 65 ≤ c.toNat && c.toNat ≤ 90 then Char.ofNat (c.toNat + 32) else c

/-- Embedding of Python `image_path.suffix.lower()`. -/
def strLower (s : String) : String := ⟨s.data.map lowerChar⟩

/-- Embedding of `classify_token` (`qwen3_vl.py` lines 67-74 and
`extract.py` lines 68-76): image-id check first, then the two
angle-bracket-markup checks, else text. -/
def classify_token (token_id : Nat) (token_text : String) : String :=
  if token_id = IMAGE_TOKEN_ID then "image"
  else if strStartsWith token_text "<|" && strEndsWith token_text "|>" then "special"
  else if strStartsWith token_text "<" && strEndsWith token_text ">" then "special"
  else "text"

/-- Embedding of `GridInfo` (`base.py` lines 12-29). `positions` is the
insertion-ordered association list mirroring the Python dict
`token_index -> (row, col)`. -/
structure GridInfo where
  grid_rows : Nat
  grid_cols : Nat
  start_idx : Nat
  end_idx : Nat
  positions : List (Nat × Nat × Nat)
deriving DecidableEq, Repr

/-- Embedding of the first scan of `build_image_grid` (`qwen3_vl.py` lines
88-94): walk the sequence with a running index, recording the first and the
most recent index whose id is the image placeholder. -/
def scanBlock : List Nat → Nat → Option (Nat × Nat) → Option (Nat × Nat)
  | [], _, acc => acc
  | tid :: rest, i, acc =>
    if tid = IMAGE_TOKEN_ID then
      match acc with
      | none => scanBlock rest (i + 1) (some (i, i))
      | some (s, _) => scanBlock rest (i + 1) (some (s, i))
    else scanBlock rest (i + 1) acc

/-- Embedding of the second scan of `build_image_grid` (`qwen3_vl.py` lines
99-106): walk the index window, assigning each placeholder token the next
row-major cell.  The Python `img_idx // grid_cols` raises
`ZeroDivisionError` when `grid_cols == 0`, embedded as the `Except.error`
branch. -/
def positionsAux (ids : List Nat) (grid_cols : Nat) :
    List Nat → Nat → Except String (List (Nat × Nat × Nat))
  | [], _ => .ok []
  | i :: rest, img_idx =>
    if ids.getD i 0 = IMAGE_TOKEN_ID then
      if grid_cols = 0 then .error dzMsg
      else
        match positionsAux ids grid_cols rest (img_idx + 1) with
        | .ok ps => .ok ((i, img_idx / grid_cols, img_idx % grid_cols) :: ps)
        | .error e => .error e
    else positionsAux ids grid_cols rest img_idx

/-- Embedding of `Qwen3VLAdapter.build_image_grid` (`qwen3_vl.py` lines
76-108; identical algorithm in `extract.py` lines 79-119 with the same
default `merge_size=2`, `patch_size=16`). -/
def build_image_grid (input_ids : List Nat) (image_width image_height : Nat) :
    Except String GridInfo :=
  let merge_size := 2
  let patch_size := 16
  let effective_patch := patch_size * merge_size
  let grid_cols := image_width / effective_patch
  let grid_rows := image_height / effective_patch
  match scanBlock input_ids 0 none with
  | none => .ok ⟨0, 0, 0, 0, []⟩
  | some (s, e) =>
    match positionsAux input_ids grid_cols (List.range' s (e + 1 - s)) 0 with
    | .ok ps => .ok ⟨grid_rows, grid_cols, s, e, ps⟩
    | .error err => .error err

/-- Embedding of the named tensor bundle returned by `adapter.preprocess`
(the dict produced by the HuggingFace processor).  The four optional
fields model presence of the vision-derived keys tested by name in
`extract.py` line 67. Tensors themselves are opaque `Nat` handles. -/
structure Inputs where
  input_ids : List Nat
  attention_mask : List Nat
  pixel_values : Option Nat
  image_grid_thw : Option Nat
  pixel_values_videos : Option Nat
  video_grid_thw : Option Nat
deriving DecidableEq, Repr

/-- Embedding of the generate-mode forward-input rebuild
(`attentionviz/extract.py` lines 63-69): `input_ids` becomes the full
generated sequence, `attention_mask` becomes `torch.ones_like` of it, and
each of the four vision keys is carried over from the preprocessed inputs
when present. -/
def makeForwardInputs (inputs : Inputs) (gen_output : List Nat) : Inputs :=
  { input_ids := gen_output
    attention_mask := List.replicate gen_output.length 1
    pixel_values := inputs.pixel_values
    image_grid_thw := inputs.image_grid_thw
    pixel_values_videos := inputs.pixel_values_videos
    video_grid_thw := inputs.video_grid_thw }

/-- Embedding of one entry of the `tokens` array of `meta.json`
(`attentionviz/extract.py` lines 108-113): `grid_pos` is the optional
`(row, col)` looked up in `GridInfo.positions`. -/
structure TokenEntry where
  id : Nat
  text : String
  type : String
  grid_pos : Option (Nat × Nat)
deriving DecidableEq, Repr

/-- Default token entry used with `List.getD` in statements. -/
def defaultTokenEntry : TokenEntry := ⟨0, "", "text", none⟩

/-- Embedding of the token-metadata loop body (`attentionviz/extract.py`
lines 107-113): running index `n` mirrors `enumerate`. -/
def buildTokensMetaAux (grid : GridInfo) : Nat → List (Nat × String) → List TokenEntry
  | _, [] => []
  | n, (tid, s) :: rest =>
    { id := n, text := s, type := classify_token tid s
      grid_pos := grid.positions.lookup n } :: buildTokensMetaAux grid (n + 1) rest

/-- Embedding of the token-metadata assembly (`attentionviz/extract.py`
lines 107-113): `enumerate(zip(input_ids_list, token_texts))`. -/
def buildTokensMeta (ids : List Nat) (texts : List String) (grid : GridInfo) :
    List TokenEntry :=
  buildTokensMetaAux grid 0 (ids.zip texts)

/-- Embedding of the `meta` dict written to `meta.json`
(`attentionviz/extract.py` lines 115-132). -/
structure Meta where
  model : String
  mode : String
  prompt : String
  image_path : String
  image_size : Nat × Nat
  num_layers : Nat
  num_heads : Nat
  seq_len : Nat
  dtype : String
  tokens : List TokenEntry
  grid_rows : Nat
  grid_cols : Nat
  grid_start_idx : Nat
  grid_end_idx : Nat
deriving DecidableEq, Repr

/-- How the source image is persisted as `image.jpg`
(`attentionviz/extract.py` lines 140-144): `shutil.copy2` (byte-for-byte
copy) versus `image.save(dest, "JPEG", quality=95)`. -/
inductive ImagePersist where
  | copyBytes
  | reencodeJpeg (quality : Nat)
deriving DecidableEq, Repr

/-- Environment abstracting the external collaborators of one
`run_extraction` call: filesystem facts about the image path, the decoded
image's original size, the loaded model's config counts, the preprocessed
inputs, the generation result, the tokenizer's single-token decode, and
the attention tensors (opaque handles) the forward pass returns for given
forward inputs. -/
structure Env where
  imageExists : Bool
  imageSuffix : String
  imageWidth : Nat
  imageHeight : Nat
  modelName : String
  prompt : String
  mode : String
  numLayers : Nat
  numHeads : Nat
  inputs : Inputs
  genOutput : List Nat
  decode : Nat → String
  attns : Inputs → List Nat

/-- The working token sequence (`attentionviz/extract.py` lines 47, 59,
71): the generated full sequence in generate mode, else the prompt ids. -/
def workingIds (env : Env) : List Nat :=
  if env.mode = "generate" then env.genOutput else env.inputs.input_ids

/-- The inputs handed to the attention-capturing forward pass
(`attentionviz/extract.py` lines 63-73). -/
def forwardInputsOf (env : Env) : Inputs :=
  if env.mode = "generate" then makeForwardInputs env.inputs env.genOutput
  else env.inputs

/-- The attention file name `f"attn_layer_{layer_idx:02d}.bin"`
(`attentionviz/extract.py` line 102). -/
def layerFileName (i : Nat) : String :=
  let s := toString i
  let padded := if i < 10 then "0" ++ s else s
  "attn_layer_" ++ padded ++ ".bin"

/-- Observable effects of one `run_extraction` call: whether the output
directory was created, the inputs passed to the forward pass (none when
the run aborts earlier), the attention files written in order, the
metadata written, the image persisted, and the error the run raises (if
any). -/
structure RunTrace where
  dirCreated : Bool
  forwardInputs : Option Inputs
  attnFilesWritten : List String
  metaWritten : Option Meta
  imageWritten : Option (String × ImagePersist)
  error : Option String
deriving Repr

/-- Embedding of `run_extraction` (`attentionviz/extract.py` lines 16-157;
`src/extract.py`'s `main` lines 122-287 is the same pipeline inlined).
Steps in source order: `output_dir.mkdir(parents=True, exist_ok=True)`;
image-existence check (`FileNotFoundError` if absent); generate-mode
rebuild of the forward inputs; per-token decode; `build_image_grid` on the
working sequence and the original image size (a `ZeroDivisionError` there
aborts before the forward pass); forward pass; one attention file per
returned tensor; metadata assembly and write; image persistence decided by
the lower-cased path suffix; final size-summary loop which `stat`s one
file per configured layer and hence (in a fresh directory) raises
`FileNotFoundError` when fewer tensors than layers were returned. -/
def run_extraction (env : Env) : RunTrace :=
  if env.imageExists = false then
    { dirCreated := true, forwardInputs := none, attnFilesWritten := []
      metaWritten := none, imageWritten := none
      error := some "FileNotFoundError: Image not found" }
  else
    let input_ids_list := workingIds env
    let forward_inputs := forwardInputsOf env
    let seq_len := input_ids_list.length
    let token_texts := input_ids_list.map env.decode
    match build_image_grid input_ids_list env.imageWidth env.imageHeight with
    | .error e =>
      { dirCreated := true, forwardInputs := none, attnFilesWritten := []
        metaWritten := none, imageWritten := none, error := some e }
    | .ok grid =>
      let attns := env.attns forward_inputs
      let attn_files := (List.range attns.length).map layerFileName
      let tokens_meta := buildTokensMeta input_ids_list token_texts grid
      let meta : Meta :=
        { model := env.modelName, mode := env.mode, prompt := env.prompt
          image_path := "image.jpg"
          image_size := (env.imageWidth, env.imageHeight)
          num_layers := env.numLayers, num_heads := env.numHeads
          seq_len := seq_len, dtype := "float16", tokens := tokens_meta
          grid_rows := grid.grid_rows, grid_cols := grid.grid_cols
          grid_start_idx := grid.start_idx, grid_end_idx := grid.end_idx }
      let persist :=
        if strLower env.imageSuffix = ".jpg" ∨ strLower env.imageSuffix = ".jpeg"
        then ImagePersist.copyBytes
        else ImagePersist.reencodeJpeg 95
      let summary_error :=
        if env.numLayers ≤ attns.length then none
        else some "FileNotFoundError: missing attention file in summary"
      { dirCreated := true, forwardInputs := some forward_inputs
        attnFilesWritten := attn_files, metaWritten := some meta
        imageWritten := some ("image.jpg", persist)
        error := summary_error }

/-! ### Concrete environments used to instantiate the theorems -/

/-- A run without any image-placeholder token, whose forward pass returns
two attention tensors while the config reports one layer. -/
def envPlain : Env :=
  { imageExists := true, imageSuffix := ".png", imageWidth := 64, imageHeight := 64
    modelName := "Qwen/Qwen3-VL-2B-Thinking", prompt := "Describe this image."
    mode := "prefill", numLayers := 1, numHeads := 2
    inputs := { input_ids := [1, 2], attention_mask := [1, 1]
                pixel_values := some 3, image_grid_thw := some 4
                pixel_values_videos := none, video_grid_thw := none }
    genOutput := [], decode := fun _ => "a", attns := fun _ => [10, 11] }

/-- A nominal prefill run over a sequence with one placeholder token. -/
def envNominal : Env :=
  { imageExists := true, imageSuffix := ".jpg", imageWidth := 64, imageHeight := 64
    modelName := "Qwen/Qwen3-VL-2B-Thinking", prompt := "Describe this image."
    mode := "prefill", numLayers := 2, numHeads := 2
    inputs := { input_ids := [1, IMAGE_TOKEN_ID, 2], attention_mask := [1, 1, 1]
                pixel_values := some 3, image_grid_thw := some 4
                pixel_values_videos := none, video_grid_thw := none }
    genOutput := [], decode := fun _ => "t", attns := fun _ => [10, 11] }

/-- A generate-mode run: the generated full sequence extends the prompt. -/
def envGen : Env :=
  { imageExists := true, imageSuffix := ".png", imageWidth := 64, imageHeight := 64
    modelName := "Qwen/Qwen3-VL-2B-Thinking", prompt := "Describe this image."
    mode := "generate", numLayers := 2, numHeads := 2
    inputs := { input_ids := [1, 9], attention_mask := [1, 1]
                pixel_values := some 3, image_grid_thw := some 4
                pixel_values_videos := none, video_grid_thw := none }
    genOutput := [1, 9, IMAGE_TOKEN_ID, 7], decode := fun _ => "t"
    attns := fun _ => [5, 6] }

/-- A run whose image is narrower than one 32-pixel effective patch while
the sequence contains a placeholder token. -/
def envTiny : Env :=
  { imageExists := true, imageSuffix := ".png", imageWidth := 16, imageHeight := 16
    modelName := "Qwen/Qwen3-VL-2B-Thinking", prompt := "Describe this image."
    mode := "prefill", numLayers := 1, numHeads := 1
    inputs := { input_ids := [IMAGE_TOKEN_ID], attention_mask := [1]
                pixel_values := some 3, image_grid_thw := some 4
                pixel_values_videos := none, video_grid_thw := none }
    genOutput := [], decode := fun _ => "t", attns := fun _ => [1] }

/-- A run whose image path does not exist. -/
def envNoImg : Env :=
  { imageExists := false, imageSuffix := ".jpg", imageWidth := 64, imageHeight := 64
    modelName := "Qwen/Qwen3-VL-2B-Thinking", prompt := "Describe this image."
    mode := "prefill", numLayers := 1, numHeads := 1
    inputs := { input_ids := [1], attention_mask := [1]
                pixel_values := none, image_grid_thw := none
                pixel_values_videos := none, video_grid_thw := none }
    genOutput := [], decode := fun _ => "t", attns := fun _ => [1] }

/-! ### Helper lemmas about the first scan (`scanBlock`) -/

theorem getD_mem_of_lt : ∀ (l : List Nat) (j : Nat), j < l.length → l.getD j 0 ∈ l := by
  intro l
  induction l with
  | nil => intro j h; simp at h
  | cons a rest ih =>
    intro j h
    cases j with
    | zero => simp
    | succ j' =>
      simp only [List.getD_cons_succ]
      exact List.mem_cons_of_mem _ (ih j' (by simpa using h))

theorem scanBlock_acc_const (l : List Nat) :
    ∀ (i : Nat) (acc : Option (Nat × Nat)), IMAGE_TOKEN_ID ∉ l →
      scanBlock l i acc = acc := by
  induction l with
  | nil => intro i acc _; rfl
  | cons tid rest ih =>
    intro i acc hnot
    have htid : tid ≠ IMAGE_TOKEN_ID := fun h => hnot (by simp [h])
    have hrest : IMAGE_TOKEN_ID ∉ rest := fun h => hnot (List.mem_cons_of_mem _ h)
    simp only [scanBlock, if_neg htid]
    exact ih _ _ hrest

theorem scanBlock_with_acc (l : List Nat) :
    ∀ (i s e0 : Nat),
      ∃ p : Nat × Nat, scanBlock l i (some (s, e0)) = some p ∧ p.1 = s ∧
        (IMAGE_TOKEN_ID ∉ l → p.2 = e0) ∧
        (IMAGE_TOKEN_ID ∈ l → ∃ e, p.2 = i + e ∧ e < l.length ∧
          l.getD e 0 = IMAGE_TOKEN_ID ∧
          ∀ j, e < j → j < l.length → l.getD j 0 ≠ IMAGE_TOKEN_ID) := by
  induction l with
  | nil =>
    intro i s e0
    exact ⟨(s, e0), rfl, rfl, fun _ => rfl, fun h => absurd h (List.not_mem_nil _)⟩
  | cons tid rest ih =>
    intro i s e0
    by_cases htid : tid = IMAGE_TOKEN_ID
    · obtain ⟨p, hp, hp1, hnone, hsome⟩ := ih (i + 1) s i
      refine ⟨p, ?_, hp1, ?_, ?_⟩
      · simpa [scanBlock, htid] using hp
      · intro hnot; exact absurd (by simp [htid]) hnot
      · intro _
        by_cases hmem : IMAGE_TOKEN_ID ∈ rest
        · obtain ⟨e, he, helt, hegetD, hlast⟩ := hsome hmem
          refine ⟨e + 1, by omega, by simp only [List.length_cons]; omega, ?_, ?_⟩
          · simpa [List.getD_cons_succ] using hegetD
          · intro j hj hjlen
            cases j with
            | zero => omega
            | succ j' =>
              simp only [List.getD_cons_succ]
              exact hlast j' (by omega) (by simpa using hjlen)
        · have hp2 := hnone hmem
          refine ⟨0, by omega, by simp, by simp [htid], ?_⟩
          intro j hj hjlen
          cases j with
          | zero => omega
          | succ j' =>
            simp only [List.getD_cons_succ]
            intro hc
            exact hmem (hc ▸ getD_mem_of_lt rest j' (by simpa using hjlen))
    · obtain ⟨p, hp, hp1, hnone, hsome⟩ := ih (i + 1) s e0
      refine ⟨p, ?_, hp1, ?_, ?_⟩
      · simpa [scanBlock, htid] using hp
      · intro hnot
        exact hnone (fun hmem => hnot (List.mem_cons_of_mem _ hmem))
      · intro hmem
        have hmem' : IMAGE_TOKEN_ID ∈ rest := by
          rcases List.mem_cons.mp hmem with h | h
          · exact absurd h.symm htid
          · exact h
        obtain ⟨e, he, helt, hegetD, hlast⟩ := hsome hmem'
        refine ⟨e + 1, by omega, by simp only [List.length_cons]; omega,
          by simpa [List.getD_cons_succ] using hegetD, ?_⟩
        intro j hj hjlen
        cases j with
        | zero => omega
        | succ j' =>
          simp only [List.getD_cons_succ]
          exact hlast j' (by omega) (by simpa using hjlen)

theorem scanBlock_none_spec (l : List Nat) :
    ∀ (i : Nat), IMAGE_TOKEN_ID ∈ l →
      ∃ f e, scanBlock l i none = some (i + f, i + e) ∧ f ≤ e ∧ e < l.length ∧
        l.getD f 0 = IMAGE_TOKEN_ID ∧
        (∀ j, j < f → l.getD j 0 ≠ IMAGE_TOKEN_ID) ∧
        l.getD e 0 = IMAGE_TOKEN_ID ∧
        (∀ j, e < j → j < l.length → l.getD j 0 ≠ IMAGE_TOKEN_ID) := by
  induction l with
  | nil => intro i h; exact absurd h (List.not_mem_nil _)
  | cons tid rest ih =>
    intro i hmem
    by_cases htid : tid = IMAGE_TOKEN_ID
    · obtain ⟨p, hp, hp1, hnone, hsome⟩ := scanBlock_with_acc rest (i + 1) i i
      by_cases hr : IMAGE_TOKEN_ID ∈ rest
      · obtain ⟨e, he, helt, hegetD, hlast⟩ := hsome hr
        refine ⟨0, e + 1, ?_, by omega, by simp only [List.length_cons]; omega,
          by simp [htid], by omega, by simpa [List.getD_cons_succ] using hegetD, ?_⟩
        · have : p = (i + 0, i + (e + 1)) := by
            rcases p with ⟨p1, p2⟩
            simp only [Prod.mk.injEq]
            constructor
            · simpa using hp1
            · simp only at he; omega
          rw [← this]
          simpa [scanBlock, htid] using hp
        · intro j hj hjlen
          cases j with
          | zero => omega
          | succ j' =>
            simp only [List.getD_cons_succ]
            exact hlast j' (by omega) (by simpa using hjlen)
      · have hp2 := hnone hr
        refine ⟨0, 0, ?_, Nat.le_refl 0, by simp, by simp [htid], by omega,
          by simp [htid], ?_⟩
        · have : p = (i + 0, i + 0) := by
            rcases p with ⟨p1, p2⟩
            simp only [Prod.mk.injEq]
            constructor
            · simpa using hp1
            · simp only at hp2; omega
          rw [← this]
          simpa [scanBlock, htid] using hp
        · intro j hj hjlen
          cases j with
          | zero => omega
          | succ j' =>
            simp only [List.getD_cons_succ]
            intro hc
            exact hr (hc ▸ getD_mem_of_lt rest j' (by simpa using hjlen))
    · have hmem' : IMAGE_TOKEN_ID ∈ rest := by
        rcases List.mem_cons.mp hmem with h | h
        · exact absurd h.symm htid
        · exact h
      obtain ⟨f, e, hscan, hfe, helt, hfgetD, hfirst, hegetD, hlast⟩ := ih (i + 1) hmem'
      refine ⟨f + 1, e + 1, ?_, by omega, by simp only [List.length_cons]; omega,
        by simpa [List.getD_cons_succ] using hfgetD, ?_,
        by simpa [List.getD_cons_succ] using hegetD, ?_⟩
      · have h1 : i + (f + 1) = i + 1 + f := by omega
        have h2 : i + (e + 1) = i + 1 + e := by omega
        rw [h1, h2]
        simpa [scanBlock, htid] using hscan
      · intro j hj
        cases j with
        | zero => simpa [List.getD_cons_zero] using htid
        | succ j' =>
          simp only [List.getD_cons_succ]
          exact hfirst j' (by omega)
      · intro j hj hjlen
        cases j with
        | zero => omega
        | succ j' =>
          simp only [List.getD_cons_succ]
          exact hlast j' (by omega) (by simpa using hjlen)

/-! ### Helper lemmas about the second scan (`positionsAux`) -/

theorem positionsAux_ok (ids : List Nat) (c : Nat) (hc : c ≠ 0) :
    ∀ (l : List Nat) (j0 : Nat),
      ∃ ps, positionsAux ids c l j0 = .ok ps ∧
        ps.length =
          (l.filter (fun i => decide (ids.getD i 0 = IMAGE_TOKEN_ID))).length ∧
        ∀ j, j < ps.length →
          ps.getD j (0, 0, 0) =
            ((l.filter (fun i => decide (ids.getD i 0 = IMAGE_TOKEN_ID))).getD j 0,
             (j0 + j) / c, (j0 + j) % c) := by
  intro l
  induction l with
  | nil => intro j0; exact ⟨[], rfl, rfl, by intro j hj; simp at hj⟩
  | cons i rest ih =>
    intro j0
    by_cases hp : ids.getD i 0 = IMAGE_TOKEN_ID
    · have hp' : ids[i]?.getD 0 = IMAGE_TOKEN_ID := by simpa using hp
      have hfil : (i :: rest).filter (fun i => decide (ids.getD i 0 = IMAGE_TOKEN_ID)) =
          i :: rest.filter (fun i => decide (ids.getD i 0 = IMAGE_TOKEN_ID)) := by
        simp [List.filter_cons, hp']
      obtain ⟨ps, hps, hlen, hget⟩ := ih (j0 + 1)
      refine ⟨(i, j0 / c, j0 % c) :: ps, ?_, ?_, ?_⟩
      · simp only [positionsAux, if_pos hp, if_neg hc, hps]
      · rw [hfil]
        simp [hlen]
      · intro j hj
        rw [hfil]
        cases j with
        | zero => simp
        | succ j' =>
          simp only [List.getD_cons_succ]
          have h1 : j0 + (j' + 1) = j0 + 1 + j' := by omega
          rw [h1]
          exact hget j' (by simpa using hj)
    · have hp' : ¬ids[i]?.getD 0 = IMAGE_TOKEN_ID := by simpa using hp
      have hfil : (i :: rest).filter (fun i => decide (ids.getD i 0 = IMAGE_TOKEN_ID)) =
          rest.filter (fun i => decide (ids.getD i 0 = IMAGE_TOKEN_ID)) := by
        simp [List.filter_cons, hp']
      obtain ⟨ps, hps, hlen, hget⟩ := ih j0
      refine ⟨ps, ?_, ?_, ?_⟩
      · simp only [positionsAux, if_neg hp, hps]
      · rw [hfil, hlen]
      · intro j hj
        rw [hfil]
        exact hget j hj

theorem positionsAux_zero_err (ids : List Nat) :
    ∀ (l : List Nat) (j0 : Nat),
      (∃ i ∈ l, ids.getD i 0 = IMAGE_TOKEN_ID) →
      positionsAux ids 0 l j0 = .error dzMsg := by
  intro l
  induction l with
  | nil => intro j0 h; obtain ⟨i, hi, _⟩ := h; exact absurd hi (List.not_mem_nil _)
  | cons i rest ih =>
    intro j0 hex
    by_cases hp : ids.getD i 0 = IMAGE_TOKEN_ID
    · have hp' : ids[i]?.getD 0 = IMAGE_TOKEN_ID := by simpa using hp
      simp [positionsAux, hp']
    · simp only [positionsAux, if_neg hp]
      obtain ⟨i', hi', hpi'⟩ := hex
      rcases List.mem_cons.mp hi' with h | h
      · exact absurd (h ▸ hpi') hp
      · exact ih j0 ⟨i', h, hpi'⟩

/-! ### Behaviour of `build_image_grid` -/

/-- When a placeholder is present and `grid_cols` is positive,
`build_image_grid` succeeds; `start_idx` / `end_idx` are the first / last
placeholder indices, `grid_cols` / `grid_rows` are the floored quotients by
the 32-pixel effective patch, and `positions` assigns the j-th placeholder
inside the block (0-indexed, placeholders only, in order) the cell
`(j / grid_cols, j % grid_cols)`. -/
theorem build_image_grid_ok_spec (ids : List Nat) (w h : Nat)
    (hmem : IMAGE_TOKEN_ID ∈ ids) (hc : 0 < w / 32) :
    ∃ g, build_image_grid ids w h = .ok g ∧
      g.grid_cols = w / 32 ∧ g.grid_rows = h / 32 ∧
      g.start_idx ≤ g.end_idx ∧ g.end_idx < ids.length ∧
      ids.getD g.start_idx 0 = IMAGE_TOKEN_ID ∧
      (∀ j, j < g.start_idx → ids.getD j 0 ≠ IMAGE_TOKEN_ID) ∧
      ids.getD g.end_idx 0 = IMAGE_TOKEN_ID ∧
      (∀ j, g.end_idx < j → j < ids.length → ids.getD j 0 ≠ IMAGE_TOKEN_ID) ∧
      g.positions.length =
        ((List.range' g.start_idx (g.end_idx + 1 - g.start_idx)).filter
          (fun i => decide (ids.getD i 0 = IMAGE_TOKEN_ID))).length ∧
      (∀ j, j < g.positions.length →
        g.positions.getD j (0, 0, 0) =
          (((List.range' g.start_idx (g.end_idx + 1 - g.start_idx)).filter
              (fun i => decide (ids.getD i 0 = IMAGE_TOKEN_ID))).getD j 0,
           j / g.grid_cols, j % g.grid_cols)) := by
  obtain ⟨f, e, hscan, hfe, helt, hfgetD, hfirst, hegetD, hlast⟩ :=
    scanBlock_none_spec ids 0 hmem
  have hscan0 : scanBlock ids 0 none = some (f, e) := by simpa using hscan
  have hc32 : w / (16 * 2) = w / 32 := by norm_num
  have hcne : w / (16 * 2) ≠ 0 := by omega
  obtain ⟨ps, hps, hlen, hget⟩ :=
    positionsAux_ok ids (w / (16 * 2)) hcne (List.range' f (e + 1 - f)) 0
  refine ⟨⟨h / (16 * 2), w / (16 * 2), f, e, ps⟩, ?_, hc32,
    by norm_num, hfe, helt, hfgetD, hfirst, hegetD, hlast, by simpa using hlen, ?_⟩
  · simp only [build_image_grid, hscan0, hps]
  · intro j hj
    have := hget j hj
    simpa [hc32] using this

/-- When a placeholder is present but the image width is below one
effective patch, the row-major assignment divides by `grid_cols == 0` and
`build_image_grid` fails with the embedded `ZeroDivisionError`. -/
theorem build_image_grid_zero_cols (ids : List Nat) (w h : Nat)
    (hmem : IMAGE_TOKEN_ID ∈ ids) (hw : w < 32) :
    build_image_grid ids w h = .error dzMsg := by
  obtain ⟨f, e, hscan, hfe, helt, hfgetD, hfirst, hegetD, hlast⟩ :=
    scanBlock_none_spec ids 0 hmem
  have hscan0 : scanBlock ids 0 none = some (f, e) := by simpa using hscan
  have hc0 : w / (16 * 2) = 0 := Nat.div_eq_of_lt (by omega)
  have herr : positionsAux ids (w / (16 * 2)) (List.range' f (e + 1 - f)) 0 =
      .error dzMsg := by
    rw [hc0]
    apply positionsAux_zero_err
    exact ⟨f, by rw [List.mem_range'_1]; omega, hfgetD⟩
  simp only [build_image_grid, hscan0, herr]

/-- Without any placeholder token, `build_image_grid` returns the empty
sentinel (`qwen3_vl.py` lines 96-97). -/
theorem build_image_grid_no_image (ids : List Nat) (w h : Nat)
    (hno : ∀ t ∈ ids, t ≠ IMAGE_TOKEN_ID) :
    build_image_grid ids w h = .ok ⟨0, 0, 0, 0, []⟩ := by
  have hnot : IMAGE_TOKEN_ID ∉ ids := fun hmem => hno _ hmem rfl
  have hscan : scanBlock ids 0 none = none := scanBlock_acc_const ids 0 none hnot
  simp only [build_image_grid, hscan]

/-! ### Helper lemmas about the token-metadata assembly -/

theorem buildTokensMetaAux_length (grid : GridInfo) :
    ∀ (l : List (Nat × String)) (n : Nat),
      (buildTokensMetaAux grid n l).length = l.length := by
  intro l
  induction l with
  | nil => intro n; rfl
  | cons p rest ih =>
    intro n
    rcases p with ⟨tid, s⟩
    simp only [buildTokensMetaAux, List.length_cons, ih]

theorem buildTokensMetaAux_getD (grid : GridInfo) :
    ∀ (l : List (Nat × String)) (n j : Nat), j < l.length →
      (buildTokensMetaAux grid n l).getD j defaultTokenEntry =
        { id := n + j
          text := (l.getD j (0, "")).2
          type := classify_token (l.getD j (0, "")).1 (l.getD j (0, "")).2
          grid_pos := grid.positions.lookup (n + j) } := by
  intro l
  induction l with
  | nil => intro n j hj; simp at hj
  | cons p rest ih =>
    intro n j hj
    rcases p with ⟨tid, s⟩
    cases j with
    | zero => simp [buildTokensMetaAux]
    | succ j' =>
      simp only [buildTokensMetaAux, List.getD_cons_succ]
      rw [show n + (j' + 1) = n + 1 + j' from by omega]
      exact ih (n + 1) j' (by simpa using hj)

theorem buildTokensMetaAux_grid_pos_none (grid : GridInfo)
    (hpos : grid.positions = []) :
    ∀ (l : List (Nat × String)) (n : Nat) (e : TokenEntry),
      e ∈ buildTokensMetaAux grid n l → e.grid_pos = none := by
  intro l
  induction l with
  | nil => intro n e he; simp [buildTokensMetaAux] at he
  | cons p rest ih =>
    intro n e he
    rcases p with ⟨tid, s⟩
    simp only [buildTokensMetaAux] at he
    rcases List.mem_cons.mp he with h | h
    · rw [h]
      simp [hpos, List.lookup]
    · exact ih (n + 1) e h

/-! ### Unfolding of the orchestrator pipeline -/

/-- When the image exists and the grid computation succeeds, the run
executes every remaining stage; this lemma records the full resulting
trace once. -/
theorem run_extraction_ok (env : Env) (g : GridInfo)
    (himg : env.imageExists = true)
    (hgrid : build_image_grid (workingIds env) env.imageWidth env.imageHeight =
      .ok g) :
    run_extraction env =
      { dirCreated := true
        forwardInputs := some (forwardInputsOf env)
        attnFilesWritten :=
          (List.range (env.attns (forwardInputsOf env)).length).map layerFileName
        metaWritten := some
          { model := env.modelName, mode := env.mode, prompt := env.prompt
            image_path := "image.jpg"
            image_size := (env.imageWidth, env.imageHeight)
            num_layers := env.numLayers, num_heads := env.numHeads
            seq_len := (workingIds env).length, dtype := "float16"
            tokens := buildTokensMeta (workingIds env)
              ((workingIds env).map env.decode) g
            grid_rows := g.grid_rows, grid_cols := g.grid_cols
            grid_start_idx := g.start_idx, grid_end_idx := g.end_idx }
        imageWritten := some ("image.jpg",
          if strLower env.imageSuffix = ".jpg" ∨ strLower env.imageSuffix = ".jpeg"
          then ImagePersist.copyBytes else ImagePersist.reencodeJpeg 95)
        error :=
          if env.numLayers ≤ (env.attns (forwardInputsOf env)).length then none
          else some "FileNotFoundError: missing attention file in summary" } := by
  simp only [run_extraction, himg, Bool.true_eq_false, if_false, hgrid]

/-- When the image exists but the grid computation fails, the run aborts
with that error before the forward pass. -/
theorem run_extraction_grid_error (env : Env) (msg : String)
    (himg : env.imageExists = true)
    (hgrid : build_image_grid (workingIds env) env.imageWidth env.imageHeight =
      .error msg) :
    run_extraction env =
      { dirCreated := true, forwardInputs := none, attnFilesWritten := []
        metaWritten := none, imageWritten := none, error := some msg } := by
  simp only [run_extraction, himg, Bool.true_eq_false, if_false, hgrid]

/-! ### Claim theorems -/

/-- C1: for every token-id sequence containing at least one
image-placeholder token and for `grid_cols > 0`, `build_image_grid`
returns `start_idx` equal to the index of the first placeholder and
`end_idx` equal to the index of the last placeholder, `positions` has one
entry per placeholder token in `[start_idx, end_idx]`, the j-th such
placeholder (0-indexed, counting only placeholder tokens in order) is
assigned `(j / grid_cols, j % grid_cols)`, and
`grid_cols = image_width / 32`, `grid_rows = image_height / 32`. -/
theorem build_image_grid_row_major_c1 (ids : List Nat) (w h : Nat)
    (hmem : IMAGE_TOKEN_ID ∈ ids) (hc : 0 < w / 32) :
    ∃ g, build_image_grid ids w h = .ok g ∧
      g.grid_cols = w / 32 ∧ g.grid_rows = h / 32 ∧
      g.start_idx ≤ g.end_idx ∧ g.end_idx < ids.length ∧
      ids.getD g.start_idx 0 = IMAGE_TOKEN_ID ∧
      (∀ j, j < g.start_idx → ids.getD j 0 ≠ IMAGE_TOKEN_ID) ∧
      ids.getD g.end_idx 0 = IMAGE_TOKEN_ID ∧
      (∀ j, g.end_idx < j → j < ids.length → ids.getD j 0 ≠ IMAGE_TOKEN_ID) ∧
      g.positions.length =
        ((List.range' g.start_idx (g.end_idx + 1 - g.start_idx)).filter
          (fun i => decide (ids.getD i 0 = IMAGE_TOKEN_ID))).length ∧
      (∀ j, j < g.positions.length →
        g.positions.getD j (0, 0, 0) =
          (((List.range' g.start_idx (g.end_idx + 1 - g.start_idx)).filter
              (fun i => decide (ids.getD i 0 = IMAGE_TOKEN_ID))).getD j 0,
           j / g.grid_cols, j % g.grid_cols)) :=
  build_image_grid_ok_spec ids w h hmem hc

/-- Witness for C1 on a concrete sequence (placeholders at indices 1-2)
and a 64 by 32 image. -/
theorem build_image_grid_row_major_c1_witness :
    ∃ g, build_image_grid [1, IMAGE_TOKEN_ID, IMAGE_TOKEN_ID, 2] 64 32 = .ok g ∧
      g.grid_cols = 64 / 32 ∧ g.grid_rows = 32 / 32 ∧
      g.start_idx ≤ g.end_idx ∧
      g.end_idx < [1, IMAGE_TOKEN_ID, IMAGE_TOKEN_ID, 2].length ∧
      [1, IMAGE_TOKEN_ID, IMAGE_TOKEN_ID, 2].getD g.start_idx 0 = IMAGE_TOKEN_ID ∧
      (∀ j, j < g.start_idx →
        [1, IMAGE_TOKEN_ID, IMAGE_TOKEN_ID, 2].getD j 0 ≠ IMAGE_TOKEN_ID) ∧
      [1, IMAGE_TOKEN_ID, IMAGE_TOKEN_ID, 2].getD g.end_idx 0 = IMAGE_TOKEN_ID ∧
      (∀ j, g.end_idx < j → j < [1, IMAGE_TOKEN_ID, IMAGE_TOKEN_ID, 2].length →
        [1, IMAGE_TOKEN_ID, IMAGE_TOKEN_ID, 2].getD j 0 ≠ IMAGE_TOKEN_ID) ∧
      g.positions.length =
        ((List.range' g.start_idx (g.end_idx + 1 - g.start_idx)).filter
          (fun i => decide ([1, IMAGE_TOKEN_ID, IMAGE_TOKEN_ID, 2].getD i 0 =
            IMAGE_TOKEN_ID))).length ∧
      (∀ j, j < g.positions.length →
        g.positions.getD j (0, 0, 0) =
          (((List.range' g.start_idx (g.end_idx + 1 - g.start_idx)).filter
              (fun i => decide ([1, IMAGE_TOKEN_ID, IMAGE_TOKEN_ID, 2].getD i 0 =
                IMAGE_TOKEN_ID))).getD j 0,
           j / g.grid_cols, j % g.grid_cols)) :=
  build_image_grid_row_major_c1 [1, IMAGE_TOKEN_ID, IMAGE_TOKEN_ID, 2] 64 32
    (by decide) (by decide)

/-- C2 counterexample: a run whose forward pass returns two attention
tensors while the configuration reports one layer completes with no error
at all — in particular it does not fail with any attention-capture
mismatch; metadata and both attention files are written. -/
theorem attention_mismatch_unchecked_cex_c2 :
    (envPlain.attns (forwardInputsOf envPlain)).length = 2 ∧
    envPlain.numLayers = 1 ∧
    (run_extraction envPlain).error = none ∧
    (run_extraction envPlain).metaWritten.isSome = true ∧
    (run_extraction envPlain).attnFilesWritten.length = 2 := by
  refine ⟨rfl, rfl, ?_, ?_, ?_⟩ <;> decide

/-- C2 (amended): the orchestrator performs no attention-tensor-count
check against the reported layer count — it writes one file per returned
tensor and writes the metadata regardless of any mismatch; the run
reports an error only when fewer tensors than configured layers were
returned, and that error is a missing-file error from the final size
summary, not an attention-capture-mismatch failure. -/
theorem attention_mismatch_silently_tolerated_c2 (env : Env) (g : GridInfo)
    (himg : env.imageExists = true)
    (hgrid : build_image_grid (workingIds env) env.imageWidth env.imageHeight =
      .ok g) :
    (run_extraction env).attnFilesWritten.length =
      (env.attns (forwardInputsOf env)).length ∧
    (run_extraction env).metaWritten.isSome = true ∧
    ((run_extraction env).error = none ↔
      env.numLayers ≤ (env.attns (forwardInputsOf env)).length) := by
  rw [run_extraction_ok env g himg hgrid]
  refine ⟨by simp, rfl, ?_⟩
  by_cases hle : env.numLayers ≤ (env.attns (forwardInputsOf env)).length
  · simp [hle]
  · simp [hle]

/-- Witness for the amended C2 on the mismatching concrete run. -/
theorem attention_mismatch_silently_tolerated_c2_witness :
    (run_extraction envPlain).attnFilesWritten.length =
      (envPlain.attns (forwardInputsOf envPlain)).length ∧
    (run_extraction envPlain).metaWritten.isSome = true ∧
    ((run_extraction envPlain).error = none ↔
      envPlain.numLayers ≤ (envPlain.attns (forwardInputsOf envPlain)).length) :=
  attention_mismatch_silently_tolerated_c2 envPlain ⟨0, 0, 0, 0, []⟩ rfl rfl

/-- C3 counterexample: on `[placeholder, other, placeholder]` the grid has
`start_idx = 0`, `end_idx = 2` but only two positions, so
`len(positions) = end_idx - start_idx + 1` fails. -/
theorem positions_count_cex_c3 :
    (build_image_grid [IMAGE_TOKEN_ID, 0, IMAGE_TOKEN_ID] 64 64).map
      (fun g => (g.positions.length, g.end_idx - g.start_idx + 1)) =
      .ok (2, 3) ∧ (2 : Nat) ≠ 3 :=
  ⟨rfl, by decide⟩

/-- C3 (amended): when an image block exists (and `grid_cols > 0`),
`len(positions)` equals the number of image-placeholder tokens inside
`[start_idx, end_idx]`; it equals `end_idx - start_idx + 1` exactly when
every token of the block is a placeholder (non-placeholder tokens
interleaved in the block are skipped and receive no position). -/
theorem positions_count_c3 (ids : List Nat) (w h : Nat)
    (hmem : IMAGE_TOKEN_ID ∈ ids) (hc : 0 < w / 32) :
    ∃ g, build_image_grid ids w h = .ok g ∧
      g.positions.length =
        ((List.range' g.start_idx (g.end_idx + 1 - g.start_idx)).filter
          (fun i => decide (ids.getD i 0 = IMAGE_TOKEN_ID))).length ∧
      ((∀ i, g.start_idx ≤ i → i ≤ g.end_idx → ids.getD i 0 = IMAGE_TOKEN_ID) →
        g.positions.length = g.end_idx - g.start_idx + 1) := by
  obtain ⟨g, hg, hcols, hrows, hfe, helt, hfgetD, hfirst, hegetD, hlast, hlen, hget⟩ :=
    build_image_grid_ok_spec ids w h hmem hc
  refine ⟨g, hg, hlen, ?_⟩
  intro hall
  rw [hlen]
  have hfil : (List.range' g.start_idx (g.end_idx + 1 - g.start_idx)).filter
      (fun i => decide (ids.getD i 0 = IMAGE_TOKEN_ID)) =
      List.range' g.start_idx (g.end_idx + 1 - g.start_idx) := by
    apply List.filter_eq_self.mpr
    intro a ha
    rw [List.mem_range'_1] at ha
    simp only [decide_eq_true_eq]
    exact hall a ha.1 (by omega)
  rw [hfil, List.length_range']
  omega

/-- Witness for the amended C3 on a fully contiguous placeholder block. -/
theorem positions_count_c3_witness :
    ∃ g, build_image_grid [IMAGE_TOKEN_ID, IMAGE_TOKEN_ID] 64 64 = .ok g ∧
      g.positions.length =
        ((List.range' g.start_idx (g.end_idx + 1 - g.start_idx)).filter
          (fun i => decide ([IMAGE_TOKEN_ID, IMAGE_TOKEN_ID].getD i 0 =
            IMAGE_TOKEN_ID))).length ∧
      ((∀ i, g.start_idx ≤ i → i ≤ g.end_idx →
          [IMAGE_TOKEN_ID, IMAGE_TOKEN_ID].getD i 0 = IMAGE_TOKEN_ID) →
        g.positions.length = g.end_idx - g.start_idx + 1) :=
  positions_count_c3 [IMAGE_TOKEN_ID, IMAGE_TOKEN_ID] 64 64 (by decide) (by decide)

/-- C4 counterexample: the decoded text of the image-placeholder id is
itself wrapped in `<|...|>` markup, yet `classify_token` returns
`"image"`, not `"special"` — the id check takes priority, so "special iff
wrapped" fails as stated. -/
theorem classify_token_image_priority_cex_c4 :
    (strStartsWith "<|image_pad|>" "<|" && strEndsWith "<|image_pad|>" "|>") = true ∧
    classify_token IMAGE_TOKEN_ID "<|image_pad|>" = "image" ∧
    classify_token IMAGE_TOKEN_ID "<|image_pad|>" ≠ "special" := by
  refine ⟨?_, ?_, ?_⟩ <;> decide

/-- C4 (amended): `classify_token` is a pure function of
`(token_id, token_text)`; it returns `"image"` iff the id equals the
reserved image-placeholder id 151655 (this check takes priority),
`"special"` iff the id differs and the decoded text is wrapped in
`<|...|>` or `<...>` markup, and `"text"` iff the id differs and the text
is not so wrapped. -/
theorem classify_token_characterization_c4 (token_id : Nat) (token_text : String) :
    (classify_token token_id token_text = "image" ↔ token_id = IMAGE_TOKEN_ID) ∧
    (classify_token token_id token_text = "special" ↔
      (token_id ≠ IMAGE_TOKEN_ID ∧
        ((strStartsWith token_text "<|" && strEndsWith token_text "|>")
          || (strStartsWith token_text "<" && strEndsWith token_text ">")) = true)) ∧
    (classify_token token_id token_text = "text" ↔
      (token_id ≠ IMAGE_TOKEN_ID ∧
        ((strStartsWith token_text "<|" && strEndsWith token_text "|>")
          || (strStartsWith token_text "<" && strEndsWith token_text ">")) = false)) := by
  have d1 : ("image" : String) ≠ "special" := by decide
  have d2 : ("image" : String) ≠ "text" := by decide
  have d3 : ("special" : String) ≠ "image" := by decide
  have d4 : ("special" : String) ≠ "text" := by decide
  have d5 : ("text" : String) ≠ "image" := by decide
  have d6 : ("text" : String) ≠ "special" := by decide
  by_cases h1 : token_id = IMAGE_TOKEN_ID <;>
    cases hb1 : strStartsWith token_text "<|" && strEndsWith token_text "|>" <;>
    cases hb2 : strStartsWith token_text "<" && strEndsWith token_text ">" <;>
    simp [classify_token, h1, hb1, hb2, d1, d2, d3, d4, d5, d6]

/-- C5 counterexample: with a 16-pixel-wide image and a placeholder token
present, the run is not rejected upstream — `build_image_grid` is reached
with `grid_cols == 0` and the run dies inside it with the division
error. -/
theorem zero_grid_cols_cex_c5 :
    envTiny.imageWidth / 32 = 0 ∧
    IMAGE_TOKEN_ID ∈ workingIds envTiny ∧
    build_image_grid (workingIds envTiny) envTiny.imageWidth envTiny.imageHeight =
      .error dzMsg ∧
    (run_extraction envTiny).error = some dzMsg := by
  refine ⟨by decide, by decide, rfl, by decide⟩

/-- C5 (amended): no upstream validation of the image width exists; when
the image is narrower than one 32-pixel effective patch and the working
sequence contains a placeholder token, `build_image_grid` is invoked with
`grid_cols == 0` and the run aborts there with the division-by-zero
error, before the forward pass, with no metadata or attention files
written. -/
theorem zero_grid_cols_division_error_c5 (env : Env)
    (himg : env.imageExists = true) (hw : env.imageWidth < 32)
    (hmem : IMAGE_TOKEN_ID ∈ workingIds env) :
    run_extraction env =
      { dirCreated := true, forwardInputs := none, attnFilesWritten := []
        metaWritten := none, imageWritten := none, error := some dzMsg } :=
  run_extraction_grid_error env dzMsg himg
    (build_image_grid_zero_cols _ _ _ hmem hw)

/-- Witness for the amended C5 on the 16-pixel-wide concrete run. -/
theorem zero_grid_cols_division_error_c5_witness :
    run_extraction envTiny =
      { dirCreated := true, forwardInputs := none, attnFilesWritten := []
        metaWritten := none, imageWritten := none, error := some dzMsg } :=
  zero_grid_cols_division_error_c5 envTiny rfl (by decide) (by decide)

/-- C6: in generate mode (once decoding is done and the grid step
succeeds so the forward pass is reached), the forward-pass inputs are the
rebuilt ones: `input_ids` is the full prompt+generated sequence, the
attention mask is all ones over that full length, and the four
vision-derived tensors from preprocessing are carried over unchanged. -/
theorem generate_forward_inputs_c6 (env : Env) (g : GridInfo)
    (himg : env.imageExists = true)
    (hmode : env.mode = "generate")
    (hgrid : build_image_grid (workingIds env) env.imageWidth env.imageHeight =
      .ok g) :
    (run_extraction env).forwardInputs =
      some (makeForwardInputs env.inputs env.genOutput) ∧
    (makeForwardInputs env.inputs env.genOutput).input_ids = env.genOutput ∧
    (makeForwardInputs env.inputs env.genOutput).attention_mask =
      List.replicate env.genOutput.length 1 ∧
    (makeForwardInputs env.inputs env.genOutput).pixel_values =
      env.inputs.pixel_values ∧
    (makeForwardInputs env.inputs env.genOutput).image_grid_thw =
      env.inputs.image_grid_thw ∧
    (makeForwardInputs env.inputs env.genOutput).pixel_values_videos =
      env.inputs.pixel_values_videos ∧
    (makeForwardInputs env.inputs env.genOutput).video_grid_thw =
      env.inputs.video_grid_thw := by
  rw [run_extraction_ok env g himg hgrid]
  refine ⟨?_, rfl, rfl, rfl, rfl, rfl, rfl⟩
  simp [forwardInputsOf, hmode]

/-- Witness for C6 on a concrete generate-mode run. -/
theorem generate_forward_inputs_c6_witness :
    (run_extraction envGen).forwardInputs =
      some (makeForwardInputs envGen.inputs envGen.genOutput) ∧
    (makeForwardInputs envGen.inputs envGen.genOutput).input_ids =
      envGen.genOutput ∧
    (makeForwardInputs envGen.inputs envGen.genOutput).attention_mask =
      List.replicate envGen.genOutput.length 1 ∧
    (makeForwardInputs envGen.inputs envGen.genOutput).pixel_values =
      envGen.inputs.pixel_values ∧
    (makeForwardInputs envGen.inputs envGen.genOutput).image_grid_thw =
      envGen.inputs.image_grid_thw ∧
    (makeForwardInputs envGen.inputs envGen.genOutput).pixel_values_videos =
      envGen.inputs.pixel_values_videos ∧
    (makeForwardInputs envGen.inputs envGen.genOutput).video_grid_thw =
      envGen.inputs.video_grid_thw :=
  generate_forward_inputs_c6 envGen ⟨2, 2, 2, 2, [(2, 0, 0)]⟩ rfl rfl rfl

/-- C7: in the written metadata the `tokens` array has exactly `seq_len`
entries, the `id` of the i-th entry equals `i` (strictly increasing, no
gaps), and an entry carries a `grid_pos` iff its index is a key of
`GridInfo.positions` (in which case it is that position). -/
theorem tokens_metadata_c7 (env : Env) (g : GridInfo)
    (himg : env.imageExists = true)
    (hgrid : build_image_grid (workingIds env) env.imageWidth env.imageHeight =
      .ok g) :
    ∃ m, (run_extraction env).metaWritten = some m ∧
      m.tokens.length = m.seq_len ∧
      (∀ i, i < m.tokens.length → (m.tokens.getD i defaultTokenEntry).id = i) ∧
      (∀ i, i < m.tokens.length →
        (m.tokens.getD i defaultTokenEntry).grid_pos = g.positions.lookup i) ∧
      (∀ i, i < m.tokens.length →
        ((m.tokens.getD i defaultTokenEntry).grid_pos.isSome ↔
          (g.positions.lookup i).isSome)) := by
  rw [run_extraction_ok env g himg hgrid]
  have hzlen : ((workingIds env).zip ((workingIds env).map env.decode)).length =
      (workingIds env).length := by
    simp
  have hlen : (buildTokensMeta (workingIds env)
      ((workingIds env).map env.decode) g).length = (workingIds env).length := by
    rw [buildTokensMeta, buildTokensMetaAux_length, hzlen]
  refine ⟨_, rfl, hlen, ?_, ?_, ?_⟩
  · intro i hi
    rw [hlen] at hi
    have h := buildTokensMetaAux_getD g
      ((workingIds env).zip ((workingIds env).map env.decode)) 0 i
      (by rw [hzlen]; exact hi)
    rw [buildTokensMeta, h]
    simp
  · intro i hi
    rw [hlen] at hi
    have h := buildTokensMetaAux_getD g
      ((workingIds env).zip ((workingIds env).map env.decode)) 0 i
      (by rw [hzlen]; exact hi)
    rw [buildTokensMeta, h]
    simp
  · intro i hi
    rw [hlen] at hi
    have h := buildTokensMetaAux_getD g
      ((workingIds env).zip ((workingIds env).map env.decode)) 0 i
      (by rw [hzlen]; exact hi)
    rw [buildTokensMeta, h]
    simp

/-- Witness for C7 on the nominal concrete run. -/
theorem tokens_metadata_c7_witness :
    ∃ m, (run_extraction envNominal).metaWritten = some m ∧
      m.tokens.length = m.seq_len ∧
      (∀ i, i < m.tokens.length → (m.tokens.getD i defaultTokenEntry).id = i) ∧
      (∀ i, i < m.tokens.length →
        (m.tokens.getD i defaultTokenEntry).grid_pos =
          (GridInfo.positions ⟨2, 2, 1, 1, [(1, 0, 0)]⟩).lookup i) ∧
      (∀ i, i < m.tokens.length →
        ((m.tokens.getD i defaultTokenEntry).grid_pos.isSome ↔
          ((GridInfo.positions ⟨2, 2, 1, 1, [(1, 0, 0)]⟩).lookup i).isSome)) :=
  tokens_metadata_c7 envNominal ⟨2, 2, 1, 1, [(1, 0, 0)]⟩ rfl rfl

/-- C8: for every working sequence with zero image-placeholder tokens,
`build_image_grid` returns the empty sentinel (all-zero fields, empty
positions) and no written token entry carries a `grid_pos`. -/
theorem empty_grid_sentinel_c8 (env : Env)
    (himg : env.imageExists = true)
    (hno : ∀ t ∈ workingIds env, t ≠ IMAGE_TOKEN_ID) :
    build_image_grid (workingIds env) env.imageWidth env.imageHeight =
      .ok ⟨0, 0, 0, 0, []⟩ ∧
    ∃ m, (run_extraction env).metaWritten = some m ∧
      ∀ e ∈ m.tokens, e.grid_pos = none := by
  have hgrid :=
    build_image_grid_no_image (workingIds env) env.imageWidth env.imageHeight hno
  refine ⟨hgrid, ?_⟩
  rw [run_extraction_ok env ⟨0, 0, 0, 0, []⟩ himg hgrid]
  exact ⟨_, rfl, fun e he =>
    buildTokensMetaAux_grid_pos_none ⟨0, 0, 0, 0, []⟩ rfl _ 0 e he⟩

/-- Witness for C8 on the placeholder-free concrete run. -/
theorem empty_grid_sentinel_c8_witness :
    build_image_grid (workingIds envPlain) envPlain.imageWidth
      envPlain.imageHeight = .ok ⟨0, 0, 0, 0, []⟩ ∧
    ∃ m, (run_extraction envPlain).metaWritten = some m ∧
      ∀ e ∈ m.tokens, e.grid_pos = none :=
  empty_grid_sentinel_c8 envPlain rfl (by decide)

/-- C9: once the run reaches FINALIZE, the source image is persisted as
`image.jpg`: copied byte-for-byte exactly when the source path's
lower-cased suffix is the persisted JPEG format (`.jpg` / `.jpeg`), and
re-encoded as JPEG at quality 95 otherwise. -/
theorem persist_image_c9 (env : Env) (g : GridInfo)
    (himg : env.imageExists = true)
    (hgrid : build_image_grid (workingIds env) env.imageWidth env.imageHeight =
      .ok g) :
    (run_extraction env).imageWritten =
      some ("image.jpg",
        if strLower env.imageSuffix = ".jpg" ∨ strLower env.imageSuffix = ".jpeg"
        then ImagePersist.copyBytes
        else ImagePersist.reencodeJpeg 95) ∧
    ((run_extraction env).imageWritten =
        some ("image.jpg", ImagePersist.copyBytes) ↔
      (strLower env.imageSuffix = ".jpg" ∨ strLower env.imageSuffix = ".jpeg")) := by
  rw [run_extraction_ok env g himg hgrid]
  refine ⟨rfl, ?_⟩
  by_cases hjpg : strLower env.imageSuffix = ".jpg" ∨ strLower env.imageSuffix = ".jpeg"
  · simp [hjpg]
  · simp [hjpg]

/-- Witness for C9 on a run with a non-JPEG suffix (re-encode branch). -/
theorem persist_image_c9_witness :
    (run_extraction envGen).imageWritten =
      some ("image.jpg",
        if strLower envGen.imageSuffix = ".jpg" ∨ strLower envGen.imageSuffix = ".jpeg"
        then ImagePersist.copyBytes
        else ImagePersist.reencodeJpeg 95) ∧
    ((run_extraction envGen).imageWritten =
        some ("image.jpg", ImagePersist.copyBytes) ↔
      (strLower envGen.imageSuffix = ".jpg" ∨ strLower envGen.imageSuffix = ".jpeg")) :=
  persist_image_c9 envGen ⟨2, 2, 2, 2, [(2, 0, 0)]⟩ rfl rfl

/-- C10: the output directory is created (mkdir with parents, exist-ok)
unconditionally before the image-path existence check, so a run aborting
with the image-not-found error still leaves the directory created, with
nothing else written. -/
theorem dir_created_before_image_check_c10 (env : Env) :
    (run_extraction env).dirCreated = true ∧
    (env.imageExists = false →
      run_extraction env =
        { dirCreated := true, forwardInputs := none, attnFilesWritten := []
          metaWritten := none, imageWritten := none
          error := some "FileNotFoundError: Image not found" }) := by
  constructor
  · by_cases h : env.imageExists = false
    · unfold run_extraction
      simp [h]
    · have himg : env.imageExists = true := by
        revert h; cases env.imageExists <;> simp
      cases hg : build_image_grid (workingIds env) env.imageWidth env.imageHeight with
      | error msg => rw [run_extraction_grid_error env msg himg hg]
      | ok g => rw [run_extraction_ok env g himg hg]
  · intro h
    unfold run_extraction
    simp [h]

/-- Witness for C10 on the missing-image concrete run. -/
theorem dir_created_before_image_check_c10_witness :
    (run_extraction envNoImg).dirCreated = true ∧
    (envNoImg.imageExists = false →
      run_extraction envNoImg =
        { dirCreated := true, forwardInputs := none, attnFilesWritten := []
          metaWritten := none, imageWritten := none
          error := some "FileNotFoundError: Image not found" }) :=
  dir_created_before_image_check_c10 envNoImg

end AttentionViz
